import Mathlib

/-!
Verification of the session-orchestration and page-aware step-generation core
of the ai-test-assistant repository.

The definitions below are shallow embeddings of the TypeScript source:

* `generateSelector`      — PageInspectionService.generateSelector
                            (services/page-inspection.service.ts)
* `wsGenerateSelector`    — the in-page selector generator embedded in
                            WebSocketTestOrchestrator.extractPageElements
                            (websocket/websocket-test-orchestrator.ts)
* `requestApproval`, `respondToApproval`, `timerFire`
                          — ApprovalManagerService (services/approval-manager)
* `capturePageSnapshot`   — WebSocketTestOrchestrator.capturePageSnapshot
* `runIterativeTest`      — WebSocketTestOrchestrator.runIterativeTest

JavaScript semantics that matter are modelled explicitly: string truthiness
(the empty string is falsy), `String.prototype.split(' ')`, `toLowerCase`,
`Array.prototype.includes`, and `Map.prototype.set` overwriting an existing
key.  Asynchronous promise plumbing is modelled by an explicit promise table
with settlement states, and the orchestrator loop by a deterministic
interpreter over an oracle environment supplying the LLM, driver, approval
and snapshot outcomes of each external call.
-/

namespace AiTestAssistant

/-! ## JavaScript string primitives -/

/-- ASCII lower-casing of one character, as `String.prototype.toLowerCase`
acts on the ASCII range (the only range the source compares against). -/
def lowerChar (c : Char) : Char :=
  if 65 ≤ c.toNat ∧ c.toNat ≤ 90 then Char.ofNat (c.toNat + 32) else c

/-- Model of `s.toLowerCase()`. -/
def lowerString (s : String) : String := String.mk (s.toList.map lowerChar)

/-- Helper for `split(' ')`: walk the characters, cutting at every space. -/
def splitSpacesAux : List Char → List Char → List String
  | [], acc => [String.mk acc.reverse]
  | c :: rest, acc =>
    if c = ' ' then String.mk acc.reverse :: splitSpacesAux rest []
    else splitSpacesAux rest (c :: acc)

/-- Model of the JavaScript split on a single space: splitting the empty
string gives `[""]`, and consecutive spaces give empty fragments. -/
def splitSpaces (s : String) : List String := splitSpacesAux s.toList []

/-- Model of `s.includes(pat)`: substring containment. -/
def strIncludes (s pat : String) : Bool :=
  (List.range (s.length + 1)).any (fun i => pat.toList.isPrefixOf (s.toList.drop i))

/-- JavaScript truthiness of an optional string value: an absent value and
the empty string are falsy, every other string is truthy. -/
def truthy : Option String → Bool
  | none => false
  | some s => s != ""

/-! ## Selector Synthesizer: PageInspectionService.generateSelector

The raw element shape read by the function: `raw.tag`, `raw.role`,
`raw.name`, `raw.text`, `raw.ariaLabel`, `raw.selector` and the
`raw.attributes` map. -/

structure RawElement where
  tag : Option String := none
  role : Option String := none
  name : Option String := none
  text : Option String := none
  ariaLabel : Option String := none
  attributes : List (String × String) := []
  selector : Option String := none
deriving DecidableEq

/-- Model of the optional-chained attribute lookup `raw.attributes?.[k]`. -/
def attr (raw : RawElement) (k : String) : Option String :=
  (raw.attributes.find? (fun p => p.1 == k)).map (·.2)

/-- The final fallback: the stored selector when truthy, else the fallback
path when nonempty, else the literal `unknown`. -/
def fallbackSelector (raw : RawElement) (fallbackPath : String) : String :=
  if truthy raw.selector then raw.selector.getD ""
  else if fallbackPath != "" then fallbackPath
  else "unknown"

/-- PageInspectionService.generateSelector: the priority chain
data-testid → id → aria-label → role+name → text (button or link) →
placeholder (input or textbox) → first class token → stored selector or
fallback path.  Every guard is a JavaScript truthiness test. -/
def generateSelector (raw : RawElement) (fallbackPath : String) : String :=
  if truthy (attr raw "data-testid") then
    "[data-testid=\"" ++ (attr raw "data-testid").getD "" ++ "\"]"
  else if truthy (attr raw "id") then
    "#" ++ (attr raw "id").getD ""
  else if truthy raw.ariaLabel || truthy (attr raw "aria-label") then
    let label :=
      if truthy raw.ariaLabel then raw.ariaLabel.getD ""
      else (attr raw "aria-label").getD ""
    "[aria-label=\"" ++ label ++ "\"]"
  else if truthy raw.role && (truthy raw.name || truthy raw.text) then
    let nm := if truthy raw.name then raw.name.getD "" else raw.text.getD ""
    "role=" ++ raw.role.getD "" ++ "[name=\"" ++ nm ++ "\"]"
  else if (raw.role == some "button" || raw.tag == some "button" || raw.tag == some "a")
      && truthy raw.text then
    "text=\"" ++ raw.text.getD "" ++ "\""
  else if (raw.tag == some "input" || raw.role == some "textbox")
      && truthy (attr raw "placeholder") then
    "[placeholder=\"" ++ (attr raw "placeholder").getD "" ++ "\"]"
  else if truthy (attr raw "class") then
    match (splitSpaces ((attr raw "class").getD "")).filter (fun c => c.length > 0) with
    | c :: _ => "." ++ c
    | [] => fallbackSelector raw fallbackPath
  else fallbackSelector raw fallbackPath

/-! ## Selector generator embedded in extractPageElements

The in-page script reads DOM properties: `el.id` and `el.className` are the
empty string when absent, `hasAttribute`/`getAttribute` distinguish presence
from the value. -/

structure WsElement where
  testid : Option String := none
  id : String := ""
  ariaLabel : Option String := none
  name : Option String := none
  className : String := ""
  tagName : String := "DIV"
deriving DecidableEq

/-- The `generateSelector` function inside the page-evaluate script of
WebSocketTestOrchestrator.extractPageElements: data-testid (presence test) →
id (truthiness) → aria-label (presence) → name (presence) → first class
token → lower-cased tag name. -/
def wsGenerateSelector (el : WsElement) : String :=
  match el.testid with
  | some v => "[data-testid=\"" ++ v ++ "\"]"
  | none =>
    if el.id != "" then "#" ++ el.id
    else
      match el.ariaLabel with
      | some v => "[aria-label=\"" ++ v ++ "\"]"
      | none =>
        match el.name with
        | some v => "[name=\"" ++ v ++ "\"]"
        | none =>
          match (splitSpaces el.className).filter (fun c => c.length > 0) with
          | c :: _ => "." ++ c
          | [] => lowerString el.tagName

/-- Longest run of consecutive decimal digits in a string. -/
def maxDigitRun (s : String) : Nat :=
  (s.toList.foldl
    (fun (p : Nat × Nat) c =>
      if c.isDigit then (p.1 + 1, max p.2 (p.1 + 1)) else (0, p.2))
    (0, 0)).2

/-- Model of the unanchored regex test of the source (ten-or-more
consecutive decimal digits somewhere in the string): it succeeds exactly
when the longest digit run reaches 10. -/
def matchDigitRun10 (s : String) : Bool := decide (10 ≤ maxDigitRun s)

/-- Whitespace recognised by the model of the JavaScript trim. -/
def isJsSpace (c : Char) : Bool :=
  c = ' ' || c = '\t' || c = '\n' || c = '\r'

/-- Model of the JavaScript string trim: strip whitespace from both ends. -/
def jsTrim (s : String) : String :=
  String.mk (((s.toList.dropWhile isJsSpace).reverse.dropWhile isJsSpace).reverse)

/-! ## Selector Synthesizer: StepExecutorService.generateOptimalSelector

The third selector generator of the repository, the one matching the
priority list of the specification rule for rule
(services/step-executor.service.ts lines 214–281).  Inputs are the raw
attribute record, the lower-cased tag, the nullable text content, and the
computed role; every attribute guard is a JavaScript truthiness test. -/

/-- Attribute lookup in the raw attribute record. -/
def attrIn (attributes : List (String × String)) (k : String) : Option String :=
  (attributes.find? (fun p => p.1 == k)).map (·.2)

/-- Priority 9 (first class token, unless it has a ten-digit run) and the
tag-name fallback. -/
def optSelectorClassFallback (attributes : List (String × String))
    (tag : String) : String :=
  if truthy (attrIn attributes "class") then
    match (splitSpaces ((attrIn attributes "class").getD "")).filter
        (fun c => c.length > 0) with
    | c :: _ => if !(matchDigitRun10 c) then "." ++ c else tag
    | [] => tag
  else tag

/-- Priority 8: `type` attribute for inputs, combined with `name` when both
are present. -/
def optSelectorInputType (attributes : List (String × String))
    (tag : String) : String :=
  if tag == "input" && truthy (attrIn attributes "type") then
    if truthy (attrIn attributes "name") then
      "input[type=\"" ++ (attrIn attributes "type").getD "" ++ "\"][name=\""
        ++ (attrIn attributes "name").getD "" ++ "\"]"
    else
      "input[type=\"" ++ (attrIn attributes "type").getD "" ++ "\"]"
  else optSelectorClassFallback attributes tag

/-- Priority 7: text content for `button`/`a` tags, trimmed, with the
untrimmed length under 50. -/
def optSelectorTagText (attributes : List (String × String)) (tag : String)
    (text : Option String) : String :=
  if truthy text && decide (0 < (jsTrim (text.getD "")).length)
      && decide ((text.getD "").length < 50)
      && (tag == "button" || tag == "a") then
    tag ++ ":has-text(\"" ++ jsTrim (text.getD "") ++ "\")"
  else optSelectorInputType attributes tag

/-- StepExecutorService.generateOptimalSelector: data-testid → id unless it
matches the ten-digit-run regex → aria-label → name → placeholder → role
plus short text for button/link roles → text for button/a tags → input
type(+name) → first class token unless it matches the regex → tag name. -/
def generateOptimalSelector (attributes : List (String × String)) (tag : String)
    (text : Option String) (role : String) : String :=
  if truthy (attrIn attributes "data-testid") then
    "[data-testid=\"" ++ (attrIn attributes "data-testid").getD "" ++ "\"]"
  else if truthy (attrIn attributes "id")
      && !(matchDigitRun10 ((attrIn attributes "id").getD "")) then
    "#" ++ (attrIn attributes "id").getD ""
  else if truthy (attrIn attributes "aria-label") then
    "[aria-label=\"" ++ (attrIn attributes "aria-label").getD "" ++ "\"]"
  else if truthy (attrIn attributes "name") then
    "[name=\"" ++ (attrIn attributes "name").getD "" ++ "\"]"
  else if truthy (attrIn attributes "placeholder") then
    "[placeholder=\"" ++ (attrIn attributes "placeholder").getD "" ++ "\"]"
  else if role != "" && truthy text
      && decide (0 < (jsTrim (text.getD "")).length)
      && decide ((text.getD "").length < 50)
      && (role == "button" || role == "link") then
    (if role == "button" then
      "button:has-text(\"" ++ String.mk ((jsTrim (text.getD "")).toList.take 50) ++ "\")"
    else
      "a:has-text(\"" ++ String.mk ((jsTrim (text.getD "")).toList.take 50) ++ "\")")
  else optSelectorTagText attributes tag text

/-! ## Claims C5, C6, C7: the selector priority rules -/

/-- Concrete element whose attribute map contains a data-testid (with the
empty string as value, as `<div data-testid>` yields) together with an id. -/
def elDataTestidEmpty : RawElement :=
  { tag := some "div", attributes := [("data-testid", ""), ("id", "x")] }

/-- Claim C5 counterexample: an element whose attributes contain a
data-testid entry for which PageInspectionService.generateSelector does not
return the data-testid attribute selector: the guard is a JavaScript
truthiness test, so the empty value falls through to the id rule. -/
theorem C5_counterexample :
    attr elDataTestidEmpty "data-testid" = some ""
    ∧ generateSelector elDataTestidEmpty "" = "#x"
    ∧ "#x" ≠ "[data-testid=\"\"]" := by decide

/-- Claim C5 (amended): for every element whose attributes contain a
data-testid with a nonempty value, PageInspectionService.generateSelector
returns exactly the attribute selector for that value, regardless of every
other attribute, tag, text or role; the selector generator embedded in
extractPageElements returns it for every present data-testid, empty or not. -/
theorem C5_data_testid_priority :
    (∀ (raw : RawElement) (p v : String), attr raw "data-testid" = some v → v ≠ "" →
      generateSelector raw p = "[data-testid=\"" ++ v ++ "\"]")
    ∧ (∀ (el : WsElement) (v : String), el.testid = some v →
      wsGenerateSelector el = "[data-testid=\"" ++ v ++ "\"]") := by
  constructor
  · intro raw p v h hv
    have ht : truthy (attr raw "data-testid") = true := by
      rw [h]; simp [truthy, hv]
    simp only [generateSelector]
    rw [ht]
    simp [h]
  · intro el v h
    simp [wsGenerateSelector, h]

/-- Concrete element carrying many attributes besides its data-testid. -/
def elDataTestidFull : RawElement :=
  { tag := some "button", role := some "button", text := some "Save",
    ariaLabel := some "save the form", name := some "save",
    attributes := [("data-testid", "save-btn"), ("id", "save1"),
                   ("class", "btn primary"), ("name", "save")] }

/-- Concrete element for the embedded generator. -/
def wsElDataTestid : WsElement :=
  { testid := some "save-btn", id := "save1", className := "btn primary",
    tagName := "BUTTON" }

theorem C5_witness :
    generateSelector elDataTestidFull "" = "[data-testid=\"save-btn\"]"
    ∧ wsGenerateSelector wsElDataTestid = "[data-testid=\"save-btn\"]" :=
  ⟨C5_data_testid_priority.1 elDataTestidFull "" "save-btn" (by decide) (by decide),
   C5_data_testid_priority.2 wsElDataTestid "save-btn" (by decide)⟩

/-- Concrete element whose only usable attribute is a Tailwind-style class
string whose first token contains a colon. -/
def elUtilityClass : RawElement :=
  { tag := some "div", attributes := [("class", "foo:bar baz")] }

/-- Claim C6 counterexample: the first class token contains a colon, one of
the characters the claim says can never appear in an emitted bare class
selector, yet generateSelector returns exactly that bare class selector:
the source has no character filter on class tokens at all. -/
theorem C6_counterexample :
    ("foo:bar".toList.contains ':') = true
    ∧ generateSelector elUtilityClass "" = ".foo:bar" := by decide

/-- Claim C6 (amended): whenever every higher-priority rule fails and the
class attribute is truthy with a nonempty first token, generateSelector
emits the bare class selector for that token, whatever characters the token
contains (there is no filter for the characters of the claim). -/
theorem C6_class_token_emitted
    (raw : RawElement) (p c : String) (rest : List String)
    (h1 : truthy (attr raw "data-testid") = false)
    (h2 : truthy (attr raw "id") = false)
    (h3 : (truthy raw.ariaLabel || truthy (attr raw "aria-label")) = false)
    (h4 : (truthy raw.role && (truthy raw.name || truthy raw.text)) = false)
    (h5 : ((raw.role == some "button" || raw.tag == some "button" || raw.tag == some "a")
            && truthy raw.text) = false)
    (h6 : ((raw.tag == some "input" || raw.role == some "textbox")
            && truthy (attr raw "placeholder")) = false)
    (h7 : truthy (attr raw "class") = true)
    (h8 : (splitSpaces ((attr raw "class").getD "")).filter (fun c => c.length > 0)
            = c :: rest) :
    generateSelector raw p = "." ++ c := by
  simp [generateSelector, h1, h2, h3, h4, h5, h6, h7, h8]

theorem C6_witness : generateSelector elUtilityClass "" = "." ++ "foo:bar" :=
  C6_class_token_emitted elUtilityClass "" "foo:bar" ["baz"]
    (by decide) (by decide) (by decide) (by decide) (by decide) (by decide)
    (by decide) (by decide)

theorem attrIn_filter_self (attributes : List (String × String)) (k : String) :
    attrIn (attributes.filter (fun e => e.1 != k)) k = none := by
  induction attributes with
  | nil => rfl
  | cons e rest ih =>
    by_cases h : e.1 = k
    · have hb : (e.1 != k) = false := by simp [h]
      simp only [List.filter, hb]
      exact ih
    · have hb : (e.1 != k) = true := by simp [h]
      have hbeq : (e.1 == k) = false := by simp [h]
      simp only [attrIn, List.filter, List.find?, hb, hbeq] at ih ⊢
      exact ih

theorem attrIn_filter_other (attributes : List (String × String)) (k q : String)
    (hq : q ≠ k) :
    attrIn (attributes.filter (fun e => e.1 != k)) q = attrIn attributes q := by
  induction attributes with
  | nil => rfl
  | cons e rest ih =>
    by_cases h : e.1 = k
    · have hb : (e.1 != k) = false := by simp [h]
      have hbq : (e.1 == q) = false := by
        simp [h]; exact fun hh => hq hh.symm
      simpa [attrIn, List.filter, List.find?, hb, hbq] using ih
    · have hb : (e.1 != k) = true := by simp [h]
      cases hq2 : (e.1 == q) with
      | true => simp [attrIn, List.filter, List.find?, hb, hq2]
      | false => simpa [attrIn, List.filter, List.find?, hb, hq2] using ih

theorem optSelectorClassFallback_filter_id (attributes : List (String × String))
    (tag : String) :
    optSelectorClassFallback (attributes.filter (fun e => e.1 != "id")) tag
      = optSelectorClassFallback attributes tag := by
  unfold optSelectorClassFallback
  rw [attrIn_filter_other attributes "id" "class" (by decide)]

theorem optSelectorInputType_filter_id (attributes : List (String × String))
    (tag : String) :
    optSelectorInputType (attributes.filter (fun e => e.1 != "id")) tag
      = optSelectorInputType attributes tag := by
  unfold optSelectorInputType
  rw [attrIn_filter_other attributes "id" "type" (by decide),
      attrIn_filter_other attributes "id" "name" (by decide),
      optSelectorClassFallback_filter_id]

theorem optSelectorTagText_filter_id (attributes : List (String × String))
    (tag : String) (text : Option String) :
    optSelectorTagText (attributes.filter (fun e => e.1 != "id")) tag text
      = optSelectorTagText attributes tag text := by
  unfold optSelectorTagText
  rw [optSelectorInputType_filter_id]

/-- Claim C7: in StepExecutorService.generateOptimalSelector — the Selector
Synthesizer carrying the auto-generated-id heuristic — an id whose value
contains a run of 10 or more consecutive digits is ignored: the result is
exactly what the lower-priority rules produce with the id attribute absent;
and an element with a truthy id below the heuristic threshold and no truthy
data-testid gets the id selector. -/
theorem C7_id_heuristic :
    (∀ (attributes : List (String × String)) (tag : String) (text : Option String)
        (role v : String),
      attrIn attributes "id" = some v → 10 ≤ maxDigitRun v →
      generateOptimalSelector attributes tag text role
        = generateOptimalSelector (attributes.filter (fun e => e.1 != "id"))
            tag text role)
    ∧ (∀ (attributes : List (String × String)) (tag : String) (text : Option String)
        (role v : String),
      truthy (attrIn attributes "data-testid") = false →
      attrIn attributes "id" = some v → v ≠ "" → maxDigitRun v < 10 →
      generateOptimalSelector attributes tag text role = "#" ++ v) := by
  constructor
  · intro attributes tag text role v h hd
    have hmatch : matchDigitRun10 v = true := by
      simp [matchDigitRun10, hd]
    have hguardL : (truthy (attrIn attributes "id")
        && !(matchDigitRun10 ((attrIn attributes "id").getD ""))) = false := by
      rw [h]
      simp [hmatch]
    have hguardR : (truthy (attrIn (attributes.filter (fun e => e.1 != "id")) "id")
        && !(matchDigitRun10 ((attrIn (attributes.filter
              (fun e => e.1 != "id")) "id").getD ""))) = false := by
      rw [attrIn_filter_self]
      rfl
    unfold generateOptimalSelector
    rw [attrIn_filter_other attributes "id" "data-testid" (by decide),
        attrIn_filter_other attributes "id" "aria-label" (by decide),
        attrIn_filter_other attributes "id" "name" (by decide),
        attrIn_filter_other attributes "id" "placeholder" (by decide),
        optSelectorTagText_filter_id, hguardL, hguardR]
    simp
  · intro attributes tag text role v ht h hv hd
    have hmatch : matchDigitRun10 v = false := by
      simp [matchDigitRun10]
      omega
    have hguard : (truthy (attrIn attributes "id")
        && !(matchDigitRun10 ((attrIn attributes "id").getD ""))) = true := by
      rw [h]
      simp [truthy, hv, hmatch]
    unfold generateOptimalSelector
    rw [ht, hguard]
    simp [h]

theorem C7_heuristic_witness :
    generateOptimalSelector
        [("id", "user1234567890"), ("aria-label", "Main form")] "form" none ""
      = generateOptimalSelector
          ([("id", "user1234567890"), ("aria-label", "Main form")].filter
            (fun e => e.1 != "id")) "form" none ""
    ∧ generateOptimalSelector [("id", "login-form")] "form" none ""
      = "#" ++ "login-form" :=
  ⟨C7_id_heuristic.1 [("id", "user1234567890"), ("aria-label", "Main form")]
      "form" none "" "user1234567890" rfl (by decide),
   C7_id_heuristic.2 [("id", "login-form")] "form" none "" "login-form"
      rfl rfl (by decide) (by decide)⟩

/-! ## Approval Broker: ApprovalManagerService

The service keeps a `Map` from `` `${sessionId}:${stepIndex}` `` keys to
stored promise handlers.  The model keeps an explicit table of promises (in
creation order) with a settlement state and an `armed` flag for the timeout
timer, plus the pending map as an association list with `Map.set` overwrite
semantics. -/

inductive PromState
  | unsettled
  | resolvedWith (approved : Bool)
  | rejectedWith (reason : String)
deriving DecidableEq

structure Prom where
  key : String
  stepIndex : Nat
  armed : Bool
  state : PromState
deriving DecidableEq

structure Broker where
  promises : List Prom
  pending : List (String × Nat)
deriving DecidableEq

def Broker.empty : Broker := ⟨[], []⟩

/-- The approval key: the session id, a colon, and the step index. -/
def approvalKey (sessionId : String) (stepIndex : Nat) : String :=
  sessionId ++ ":" ++ toString stepIndex

/-- Model of `Map.prototype.get`. -/
def lookupPending (pending : List (String × Nat)) (key : String) : Option Nat :=
  (pending.find? (fun e => e.1 == key)).map (·.2)

/-- Model of `Map.prototype.set`: an existing entry for the key is
overwritten. -/
def setPending (pending : List (String × Nat)) (key : String) (pid : Nat) :
    List (String × Nat) :=
  (pending.filter (fun e => e.1 != key)) ++ [(key, pid)]

/-- Model of `Map.prototype.delete`. -/
def erasePending (pending : List (String × Nat)) (key : String) :
    List (String × Nat) :=
  pending.filter (fun e => e.1 != key)

/-- Point update of the promise table. -/
def updateProm : List Prom → Nat → (Prom → Prom) → List Prom
  | [], _, _ => []
  | p :: rest, 0, f => f p :: rest
  | p :: rest, n + 1, f => p :: updateProm rest n f

/-- Model of calling the stored `resolve(response)`: settling an already
settled promise is a no-op. -/
def settleResolve (p : Prom) (approved : Bool) : Prom :=
  match p.state with
  | .unsettled => { p with state := .resolvedWith approved }
  | _ => p

/-- Model of calling the stored `reject(error)`: settling an already
settled promise is a no-op. -/
def settleReject (p : Prom) (msg : String) : Prom :=
  match p.state with
  | .unsettled => { p with state := .rejectedWith msg }
  | _ => p

/-- Model of `clearTimeout(pending.timeoutHandle)`. -/
def clearTimer (p : Prom) : Prom := { p with armed := false }

/-- ApprovalManagerService.requestApproval: create a fresh promise, arm its
timer when `timeoutMs > 0`, and store the handlers in the pending map for
the key, overwriting whatever entry the key already had.  Returns the
promise id together with the new state. -/
def requestApproval (b : Broker) (sessionId : String) (stepIndex : Nat)
    (timeoutMs : Nat) : Nat × Broker :=
  let key := approvalKey sessionId stepIndex
  let pid := b.promises.length
  let prom : Prom :=
    { key := key, stepIndex := stepIndex, armed := timeoutMs != 0,
      state := .unsettled }
  (pid, { promises := b.promises ++ [prom],
          pending := setPending b.pending key pid })

/-- ApprovalManagerService.respondToApproval: look the key up; when absent
return `false` untouched; otherwise clear the timer of the stored entry, resolve
its promise with the response, delete the key, and return `true`. -/
def respondToApproval (b : Broker) (sessionId : String) (stepIndex : Nat)
    (approved : Bool) : Bool × Broker :=
  let key := approvalKey sessionId stepIndex
  match lookupPending b.pending key with
  | none => (false, b)
  | some pid =>
    (true, { promises := updateProm b.promises pid
                (fun p => settleResolve (clearTimer p) approved),
             pending := erasePending b.pending key })

/-- The `setTimeout` callback of one requestApproval call firing: enabled
only while the timer of that promise is armed; it deletes the closed-over key
from the pending map (whatever entry the key holds by then) and rejects the
closed-over promise with the timeout error. -/
def timerFire (b : Broker) (pid : Nat) : Broker :=
  match b.promises[pid]? with
  | none => b
  | some p =>
    if p.armed then
      { promises := updateProm b.promises pid
          (fun q => settleReject (clearTimer q)
            ("Approval timeout for step " ++ toString q.stepIndex)),
        pending := erasePending b.pending p.key }
    else b

/-! ### Association-list and promise-table lemmas -/

/-- Number of entries a key has in the pending map. -/
def keyCount : List (String × Nat) → String → Nat
  | [], _ => 0
  | e :: rest, k => (if e.1 == k then 1 else 0) + keyCount rest k

theorem keyCount_append (l m : List (String × Nat)) (k : String) :
    keyCount (l ++ m) k = keyCount l k + keyCount m k := by
  induction l with
  | nil => simp [keyCount]
  | cons e rest ih => simp [keyCount, ih]; omega

theorem keyCount_filter_ne (l : List (String × Nat)) (k : String) :
    keyCount (l.filter (fun e => e.1 != k)) k = 0 := by
  induction l with
  | nil => rfl
  | cons e rest ih =>
    by_cases h : e.1 = k
    · have hb : (e.1 != k) = false := by simp [h]
      simp [List.filter, hb, ih]
    · have hb : (e.1 != k) = true := by simp [h]
      have hbeq : (e.1 == k) = false := by simp [h]
      simp [List.filter, hb, keyCount, hbeq, ih]

theorem keyCount_filter_other (l : List (String × Nat)) (k q : String) (hq : q ≠ k) :
    keyCount (l.filter (fun e => e.1 != k)) q = keyCount l q := by
  induction l with
  | nil => rfl
  | cons e rest ih =>
    by_cases h : e.1 = k
    · have hb : (e.1 != k) = false := by simp [h]
      have hbq : (e.1 == q) = false := by
        simp [h]; exact fun hh => hq hh.symm
      simp [List.filter, hb, keyCount, hbq, ih]
    · have hb : (e.1 != k) = true := by simp [h]
      simp [List.filter, hb, keyCount, ih]

theorem keyCount_setPending_self (l : List (String × Nat)) (k : String) (v : Nat) :
    keyCount (setPending l k v) k = 1 := by
  simp [setPending, keyCount_append, keyCount_filter_ne, keyCount]

theorem keyCount_setPending_other (l : List (String × Nat)) (k q : String)
    (v : Nat) (hq : q ≠ k) :
    keyCount (setPending l k v) q = keyCount l q := by
  have : ((k, v).1 == q) = false := by simp; exact fun h => hq h.symm
  simp [setPending, keyCount_append, keyCount_filter_other l k q hq, keyCount, this]

theorem keyCount_erasePending (l : List (String × Nat)) (k q : String) :
    keyCount (erasePending l k) q ≤ keyCount l q := by
  by_cases hq : q = k
  · subst hq; simp [erasePending, keyCount_filter_ne]
  · simp [erasePending, keyCount_filter_other l k q hq]

theorem findPendingFilterNone (l : List (String × Nat)) (k : String) :
    (l.filter (fun e => e.1 != k)).find? (fun e => e.1 == k) = none := by
  induction l with
  | nil => rfl
  | cons e rest ih =>
    by_cases h : e.1 = k
    · have hb : (e.1 != k) = false := by simp [h]
      simp [List.filter, hb, ih]
    · have hb : (e.1 != k) = true := by simp [h]
      have hbeq : (e.1 == k) = false := by simp [h]
      simp [List.filter, hb, List.find?, hbeq, ih]

theorem findQueryAppendNone {α : Type} (l m : List α) (p : α → Bool)
    (h : l.find? p = none) : (l ++ m).find? p = m.find? p := by
  induction l with
  | nil => simp
  | cons x rest ih =>
    cases hx : p x with
    | true => simp [List.find?, hx] at h
    | false =>
      simp only [List.find?, hx] at h
      simpa [List.find?, hx] using ih h

theorem lookupPending_setPending (l : List (String × Nat)) (k : String) (v : Nat) :
    lookupPending (setPending l k v) k = some v := by
  unfold lookupPending setPending
  rw [findQueryAppendNone _ _ _ (findPendingFilterNone l k)]
  simp [List.find?]

theorem lookupPending_erasePending (l : List (String × Nat)) (k : String) :
    lookupPending (erasePending l k) k = none := by
  unfold lookupPending erasePending
  rw [findPendingFilterNone l k]
  rfl

theorem getQueryConcatLen {α : Type} (l : List α) (a : α) :
    (l ++ [a])[l.length]? = some a := by
  induction l with
  | nil => rfl
  | cons x rest ih => simp [ih]

theorem getQueryAppendLeft {α : Type} (l m : List α) (i : Nat) (h : i < l.length) :
    (l ++ m)[i]? = l[i]? := by
  induction l generalizing i with
  | nil => simp at h
  | cons x rest ih =>
    cases i with
    | zero => simp
    | succ n =>
      have hn : n < rest.length := by simpa using h
      simpa using ih n hn

theorem updateProm_concat (l : List Prom) (a : Prom) (f : Prom → Prom) :
    updateProm (l ++ [a]) l.length f = l ++ [f a] := by
  induction l with
  | nil => rfl
  | cons x rest ih => simpa [updateProm] using ih

/-! ### Claims C3 and C8 -/

/-- First request for the key `s:0`, with no timeout. -/
def brokerAfterReq1 : Broker := (requestApproval Broker.empty "s" 0 0).2

/-- Second request for the same key while the first is still pending. -/
def brokerAfterReq2 : Broker := (requestApproval brokerAfterReq1 "s" 0 0).2

/-- The response that then arrives for the key. -/
def brokerRespond : Bool × Broker := respondToApproval brokerAfterReq2 "s" 0 true

/-- Claim C3 counterexample: after a second requestApproval for the same key
both promises are simultaneously unsettled (two outstanding requests for one
key), the pending entry now points at the second promise, and the response
resolves only the second: the future of the first request is settled zero times,
not exactly once, and the second request never waited for the first. -/
theorem C3_counterexample :
    brokerAfterReq2.promises.map Prom.state = [.unsettled, .unsettled]
    ∧ lookupPending brokerAfterReq2.pending (approvalKey "s" 0) = some 1
    ∧ brokerRespond.1 = true
    ∧ brokerRespond.2.promises.map Prom.state = [.unsettled, .resolvedWith true]
    ∧ lookupPending brokerRespond.2.pending (approvalKey "s" 0) = none := by
  decide

/-- Claim C3 (amended): the pending map itself holds at most one entry per
key, but a second requestApproval for a key does not wait: it overwrites the
first entry, a subsequent respond resolves only the promise of the second
request, the promise of the first stays unsettled through the exchange,
and the key is gone afterwards. -/
theorem C3_second_request_overwrites
    (b0 : Broker) (sid : String) (idx t1 t2 : Nat) (approved : Bool)
    (hwf : ∀ k, keyCount b0.pending k ≤ 1) :
    (respondToApproval (requestApproval (requestApproval b0 sid idx t1).2
        sid idx t2).2 sid idx approved).1 = true
    ∧ ((respondToApproval (requestApproval (requestApproval b0 sid idx t1).2
        sid idx t2).2 sid idx approved).2.promises[b0.promises.length]?).map Prom.state
        = some .unsettled
    ∧ ((respondToApproval (requestApproval (requestApproval b0 sid idx t1).2
        sid idx t2).2 sid idx approved).2.promises[b0.promises.length + 1]?).map Prom.state
        = some (.resolvedWith approved)
    ∧ lookupPending (respondToApproval (requestApproval (requestApproval b0 sid idx t1).2
        sid idx t2).2 sid idx approved).2.pending (approvalKey sid idx) = none
    ∧ (∀ k, keyCount (respondToApproval (requestApproval (requestApproval b0 sid idx t1).2
        sid idx t2).2 sid idx approved).2.pending k ≤ 1) := by
  have hkey := approvalKey sid idx
  set k := approvalKey sid idx with hk
  set p0 : Prom :=
    { key := k, stepIndex := idx, armed := t1 != 0, state := .unsettled } with hp0
  set p1 : Prom :=
    { key := k, stepIndex := idx, armed := t2 != 0, state := .unsettled } with hp1
  have hb2prom : (requestApproval (requestApproval b0 sid idx t1).2 sid idx t2).2.promises
      = (b0.promises ++ [p0]) ++ [p1] := by
    simp [requestApproval, hk]
  have hb2pend : (requestApproval (requestApproval b0 sid idx t1).2 sid idx t2).2.pending
      = setPending (setPending b0.pending k b0.promises.length) k
          (b0.promises.length + 1) := by
    simp [requestApproval, hk]
  have hlook : lookupPending (requestApproval (requestApproval b0 sid idx t1).2
      sid idx t2).2.pending k = some (b0.promises.length + 1) := by
    rw [hb2pend]; exact lookupPending_setPending _ _ _
  have hresp : respondToApproval (requestApproval (requestApproval b0 sid idx t1).2
      sid idx t2).2 sid idx approved
      = (true,
         { promises := updateProm ((b0.promises ++ [p0]) ++ [p1])
             (b0.promises.length + 1)
             (fun p => settleResolve (clearTimer p) approved),
           pending := erasePending (setPending (setPending b0.pending k
             b0.promises.length) k (b0.promises.length + 1)) k }) := by
    rw [respondToApproval]
    rw [← hk, hlook, hb2prom, hb2pend]
  have hlen : (b0.promises ++ [p0]).length = b0.promises.length + 1 := by simp
  have hupd : updateProm ((b0.promises ++ [p0]) ++ [p1]) (b0.promises.length + 1)
      (fun p => settleResolve (clearTimer p) approved)
      = (b0.promises ++ [p0]) ++ [settleResolve (clearTimer p1) approved] := by
    rw [← hlen]; exact updateProm_concat _ _ _
  refine ⟨by rw [hresp], ?_, ?_, ?_, ?_⟩
  · rw [hresp]
    simp only [hupd]
    rw [getQueryAppendLeft _ _ _ (by simp), getQueryConcatLen]
    simp [hp0]
  · rw [hresp]
    simp only [hupd]
    rw [← hlen, getQueryConcatLen]
    simp [hp1, settleResolve, clearTimer]
  · rw [hresp]
    exact lookupPending_erasePending _ _
  · intro q
    rw [hresp]
    refine le_trans (keyCount_erasePending _ _ _) ?_
    by_cases hq : q = k
    · subst hq; simp [keyCount_setPending_self]
    · rw [keyCount_setPending_other _ _ _ _ hq, keyCount_setPending_other _ _ _ _ hq]
      exact hwf q

theorem C3_witness :
    (respondToApproval (requestApproval (requestApproval Broker.empty "s" 3 0).2
        "s" 3 0).2 "s" 3 true).1 = true
    ∧ ((respondToApproval (requestApproval (requestApproval Broker.empty "s" 3 0).2
        "s" 3 0).2 "s" 3 true).2.promises[(Broker.empty).promises.length]?).map Prom.state
        = some .unsettled
    ∧ ((respondToApproval (requestApproval (requestApproval Broker.empty "s" 3 0).2
        "s" 3 0).2 "s" 3 true).2.promises[(Broker.empty).promises.length + 1]?).map Prom.state
        = some (.resolvedWith true)
    ∧ lookupPending (respondToApproval (requestApproval (requestApproval Broker.empty "s" 3 0).2
        "s" 3 0).2 "s" 3 true).2.pending (approvalKey "s" 3) = none
    ∧ (∀ k, keyCount (respondToApproval (requestApproval (requestApproval Broker.empty "s" 3 0).2
        "s" 3 0).2 "s" 3 true).2.pending k ≤ 1) :=
  C3_second_request_overwrites Broker.empty "s" 3 0 0 true
    (fun _ => by simp [Broker.empty, keyCount])

/-- Claim C8: a request registered with a positive timeout and never
answered: when its timer fires, the promise is rejected with the timeout
error naming the step, the key is deleted from the pending table, and a
subsequent respondToApproval for the same key returns false (not processed)
and leaves the broker state unchanged. -/
theorem C8_timeout_rejects_and_clears
    (b0 : Broker) (sid : String) (idx t : Nat) (approved : Bool) (ht : 0 < t) :
    ((requestApproval b0 sid idx t).2.promises[b0.promises.length]?
      = some { key := approvalKey sid idx, stepIndex := idx, armed := true,
               state := .unsettled })
    ∧ (((timerFire (requestApproval b0 sid idx t).2
          b0.promises.length).promises[b0.promises.length]?).map Prom.state
        = some (.rejectedWith ("Approval timeout for step " ++ toString idx)))
    ∧ lookupPending (timerFire (requestApproval b0 sid idx t).2
          b0.promises.length).pending (approvalKey sid idx) = none
    ∧ respondToApproval (timerFire (requestApproval b0 sid idx t).2
          b0.promises.length) sid idx approved
        = (false, timerFire (requestApproval b0 sid idx t).2 b0.promises.length) := by
  have harm : (t != 0) = true := by simp; omega
  set k := approvalKey sid idx with hk
  set pr : Prom :=
    { key := k, stepIndex := idx, armed := true, state := .unsettled } with hpr
  have hget : (requestApproval b0 sid idx t).2.promises[b0.promises.length]?
      = some pr := by
    simp only [requestApproval, harm, hk]
    exact getQueryConcatLen _ _
  have hfire : timerFire (requestApproval b0 sid idx t).2 b0.promises.length
      = { promises := updateProm (b0.promises ++ [pr]) b0.promises.length
            (fun q => settleReject (clearTimer q)
              ("Approval timeout for step " ++ toString q.stepIndex)),
          pending := erasePending (setPending b0.pending k b0.promises.length) k } := by
    rw [timerFire, hget]
    simp [requestApproval, harm, hk, hpr]
  have hupd : updateProm (b0.promises ++ [pr]) b0.promises.length
      (fun q => settleReject (clearTimer q)
        ("Approval timeout for step " ++ toString q.stepIndex))
      = b0.promises ++
        [{ key := k, stepIndex := idx, armed := false,
           state := .rejectedWith ("Approval timeout for step " ++ toString idx) }] := by
    rw [updateProm_concat]
    simp [hpr, settleReject, clearTimer]
  have hlook : lookupPending (timerFire (requestApproval b0 sid idx t).2
      b0.promises.length).pending k = none := by
    rw [hfire]
    exact lookupPending_erasePending _ _
  refine ⟨hget, ?_, hlook, ?_⟩
  · rw [hfire]
    simp only [hupd]
    rw [getQueryConcatLen]
    rfl
  · rw [respondToApproval, ← hk, hlook]

theorem C8_witness :
    ((requestApproval Broker.empty "sess" 0 50).2.promises[(Broker.empty).promises.length]?
      = some { key := approvalKey "sess" 0, stepIndex := 0, armed := true,
               state := .unsettled })
    ∧ (((timerFire (requestApproval Broker.empty "sess" 0 50).2
          (Broker.empty).promises.length).promises[(Broker.empty).promises.length]?).map Prom.state
        = some (.rejectedWith ("Approval timeout for step " ++ toString 0)))
    ∧ lookupPending (timerFire (requestApproval Broker.empty "sess" 0 50).2
          (Broker.empty).promises.length).pending (approvalKey "sess" 0) = none
    ∧ respondToApproval (timerFire (requestApproval Broker.empty "sess" 0 50).2
          (Broker.empty).promises.length) "sess" 0 true
        = (false, timerFire (requestApproval Broker.empty "sess" 0 50).2
            (Broker.empty).promises.length) :=
  C8_timeout_rejects_and_clears Broker.empty "sess" 0 50 true (by decide)

/-! ## Page Snapshot Builder: WebSocketTestOrchestrator.capturePageSnapshot

`capturePageSnapshot` throws when the executor has no current page;
otherwise it reads `page.url()` and `await page.title()` inside a try block
whose catch returns the synthetic error snapshot, and extracts elements via
`extractPageElements`, whose own catch swallows evaluation errors and
returns an empty list.  A `Page` is modelled by the outcomes of those three
driver calls; the capture timestamp is omitted. -/

structure PageElem where
  tag : String
  selector : String
  text : String
  role : String
  ariaLabel : Option String := none
  attributes : List (String × String) := []
deriving DecidableEq

structure PageSnapshot where
  url : String
  title : String
  elements : List PageElem
deriving DecidableEq

structure Page where
  urlR : Except String String
  titleR : Except String String
  evalR : Except String (List PageElem)

/-- extractPageElements: evaluation failures are caught and yield `[]`. -/
def extractPageElements (p : Page) : List PageElem :=
  match p.evalR with
  | .ok els => els
  | .error _ => []

/-- capturePageSnapshot: throws with no page; otherwise the try block reads
url then title (either failing lands in the catch, which returns the
synthetic error snapshot) and builds the snapshot. -/
def capturePageSnapshot (page : Option Page) : Except String PageSnapshot :=
  match page with
  | none => .error "No active page available for snapshot"
  | some p =>
    match p.urlR with
    | .error _ => .ok { url := "unknown", title := "Error capturing snapshot", elements := [] }
    | .ok u =>
      match p.titleR with
      | .error _ => .ok { url := "unknown", title := "Error capturing snapshot", elements := [] }
      | .ok t => .ok { url := u, title := t, elements := extractPageElements p }

/-- Claim C9 counterexample: with no page loaded, capturePageSnapshot does
not return an empty-element error snapshot — it throws, so this total
failure of capture is an exception the caller sees. -/
theorem C9_counterexample :
    capturePageSnapshot none = .error "No active page available for snapshot" := by
  rfl

/-- Claim C9 (amended): only a driver error during capture, with a page
present, yields the empty-element snapshot with the synthetic error title;
when no page is loaded, capturePageSnapshot throws instead of returning. -/
theorem C9_snapshot_error_handling
    (p : Page) (e : String) (h : p.urlR = .error e ∨ p.titleR = .error e) :
    capturePageSnapshot (some p)
      = .ok { url := "unknown", title := "Error capturing snapshot", elements := [] }
    ∧ capturePageSnapshot none = .error "No active page available for snapshot" := by
  refine ⟨?_, rfl⟩
  rcases h with h | h
  · simp [capturePageSnapshot, h]
  · cases hu : p.urlR with
    | error e2 => simp [capturePageSnapshot, hu]
    | ok u => simp [capturePageSnapshot, hu, h]

/-- Concrete page whose title read fails. -/
def pageTitleFails : Page :=
  { urlR := .ok "https://example.com", titleR := .error "Target closed",
    evalR := .ok [] }

theorem C9_witness :
    capturePageSnapshot (some pageTitleFails)
      = .ok { url := "unknown", title := "Error capturing snapshot", elements := [] }
    ∧ capturePageSnapshot none = .error "No active page available for snapshot" :=
  C9_snapshot_error_handling pageTitleFails "Target closed" (Or.inr rfl)

/-! ## Iterative Orchestrator: WebSocketTestOrchestrator.runIterativeTest

The loop is modelled as a deterministic interpreter over an oracle
environment supplying, per external call in order, the LLM step-generation
outcome, the approval-gate outcome delivered through the onStepGenerated
callback, the driver execution outcome, and the snapshot-capture outcome.
A `thrown` approval outcome is a rejected approval promise (timeout or
cancellation) propagating out of the awaited callback.  Throwing calls are
`Except.error`; the surrounding per-intention catch block of the source is
mirrored at each such point. -/

inductive StepStatus
  | passed
  | failed
  | skipped
deriving DecidableEq

structure TestStep where
  action : String
  target : Option String := none
  value : Option String := none
  description : Option String := none
deriving DecidableEq

structure TestStepResult where
  step : TestStep
  status : StepStatus
  duration : Nat
  error : Option String := none
deriving DecidableEq

inductive ApprovalOutcome
  | approved
  | rejected
  | thrown (msg : String)
deriving DecidableEq

inductive RunStatus
  | completed
  | failed
  | cancelled
deriving DecidableEq

/-- Oracle environment: one entry per external call, indexed by the number
of calls of that kind already made. -/
structure OrchEnv where
  intentions : Except String (List String)
  genStep : Nat → Except String TestStep
  hasApproval : Bool
  approval : Nat → ApprovalOutcome
  execResult : Nat → TestStep → Except String TestStepResult
  snapshotResult : Nat → Except String PageSnapshot

/-- Mutable loop state: the `executedSteps` and `results` arrays, the
current snapshot, and ghost counters of the external calls made so far. -/
structure LoopState where
  steps : List TestStep
  results : List TestStepResult
  snapshot : Option PageSnapshot
  genCalls : Nat
  apprCalls : Nat
  execCalls : Nat
  snapCalls : Nat

def LoopState.init : LoopState := ⟨[], [], none, 0, 0, 0, 0⟩

/-- The failed StepResult the per-intention catch block appends. -/
def errorResult (intention msg : String) : TestStepResult :=
  { step := { action := "error",
              description := some ("Failed to process: " ++ intention) },
    status := .failed, duration := 0, error := some msg }

def pushError (s : LoopState) (intention msg : String) : LoopState :=
  { s with results := s.results ++ [errorResult intention msg] }

/-- Keyword test: `navigate`, `go to`, `open`, `visit`, `load`, `browse to`
tested by substring against the lower-cased intention. -/
def isNavigationIntention (intention : String) : Bool :=
  ["navigate", "go to", "open", "visit", "load", "browse to"].any
    (fun k => strIncludes (lowerString intention) k)

/-- The page-changing action list of isPageChangingAction. -/
def isPageChangingAction (action : String) : Bool :=
  ["click", "submit", "goto", "select", "check", "uncheck"].contains
    (lowerString action)

/-- Outcome of processing one intention: continue the loop, or leave it
with a final status; `caught` records that the per-intention catch block
fired. -/
inductive StepOutcome
  | next (s : LoopState)
  | halt (s : LoopState) (st : RunStatus) (caught : Bool)

/-- The `onStepGenerated` gate: consult the approval oracle when the
callback is installed, otherwise proceed as approved. -/
def gateOutcome (env : OrchEnv) (s : LoopState) : LoopState × ApprovalOutcome :=
  if env.hasApproval then
    ({ s with apprCalls := s.apprCalls + 1 }, env.approval s.apprCalls)
  else (s, .approved)

/-- Execution of an approved context step (lines 306–341 of the
orchestrator): run it through the driver, append the step and its result,
fail fast on a failed result, and recapture a snapshot after a
page-changing action.  Every throwing call lands in the per-intention
catch. -/
def execPhase (env : OrchEnv) (intention : String) (step : TestStep)
    (s : LoopState) : StepOutcome :=
  match env.execResult s.execCalls step with
  | .error msg =>
    .halt (pushError { s with execCalls := s.execCalls + 1 } intention msg) .failed true
  | .ok res =>
    let s2 := { s with execCalls := s.execCalls + 1,
                       steps := s.steps ++ [step],
                       results := s.results ++ [res] }
    if res.status = .failed then .halt s2 .failed false
    else if isPageChangingAction step.action then
      match env.snapshotResult s2.snapCalls with
      | .error msg =>
        .halt (pushError { s2 with snapCalls := s2.snapCalls + 1 } intention msg)
          .failed true
      | .ok snap =>
        .next { s2 with snapCalls := s2.snapCalls + 1, snapshot := some snap }
    else .next s2

/-- Generate a concrete step with page context and gate it through the
approval callback (lines 285–304), then execute it. -/
def contextPhase (env : OrchEnv) (intention : String) (s : LoopState) : StepOutcome :=
  match env.genStep s.genCalls with
  | .error msg =>
    .halt (pushError { s with genCalls := s.genCalls + 1 } intention msg) .failed true
  | .ok step =>
    let gate := gateOutcome env { s with genCalls := s.genCalls + 1 }
    match gate.2 with
    | .rejected => .halt gate.1 .cancelled false
    | .thrown msg => .halt (pushError gate.1 intention msg) .failed true
    | .approved => execPhase env intention step gate.1

/-- Execution of an approved navigation step (lines 248–281): run it,
append step and result, fail fast on a failed result, capture the first
snapshot, and either continue to the next intention (purely navigational
intention) or fall through to the context phase for the same intention. -/
def navExecPhase (env : OrchEnv) (intention : String) (navStep : TestStep)
    (s : LoopState) : StepOutcome :=
  match env.execResult s.execCalls navStep with
  | .error msg =>
    .halt (pushError { s with execCalls := s.execCalls + 1 } intention msg) .failed true
  | .ok navRes =>
    let s2 := { s with execCalls := s.execCalls + 1,
                       steps := s.steps ++ [navStep],
                       results := s.results ++ [navRes] }
    if navRes.status = .failed then .halt s2 .failed false
    else
      match env.snapshotResult s2.snapCalls with
      | .error msg =>
        .halt (pushError { s2 with snapCalls := s2.snapCalls + 1 } intention msg)
          .failed true
      | .ok snap =>
        let s3 := { s2 with snapCalls := s2.snapCalls + 1, snapshot := some snap }
        if isNavigationIntention intention then .next s3
        else contextPhase env intention s3

/-- The navigation block (lines 224–282): generate the navigation step
without page context, gate it, then execute it. -/
def navPhase (env : OrchEnv) (intention : String) (s : LoopState) : StepOutcome :=
  match env.genStep s.genCalls with
  | .error msg =>
    .halt (pushError { s with genCalls := s.genCalls + 1 } intention msg) .failed true
  | .ok navStep =>
    let gate := gateOutcome env { s with genCalls := s.genCalls + 1 }
    match gate.2 with
    | .rejected => .halt gate.1 .cancelled false
    | .thrown msg => .halt (pushError gate.1 intention msg) .failed true
    | .approved => navExecPhase env intention navStep gate.1

/-- One intention of the loop body: the navigation block runs when the
intention is navigational or is the first one, and no snapshot exists yet. -/
def processIntention (env : OrchEnv) (idx : Nat) (intention : String)
    (s : LoopState) : StepOutcome :=
  if (isNavigationIntention intention || idx == 0) && s.snapshot.isNone then
    navPhase env intention s
  else contextPhase env intention s

/-- The `for` loop over the intentions; `status` starts at completed and is
only changed by a halting branch. -/
def runLoop (env : OrchEnv) : List String → Nat → LoopState →
    LoopState × RunStatus × Bool
  | [], _, s => (s, .completed, false)
  | intention :: rest, idx, s =>
    match processIntention env idx intention s with
    | .next s1 => runLoop env rest (idx + 1) s1
    | .halt s1 st c => (s1, st, c)

structure RunOutcome where
  intentions : List String
  state : LoopState
  status : RunStatus
  caughtError : Bool

/-- runIterativeTest: parse the scenario into intentions (a parse failure
lands in the outer catch, returning the accumulated — empty — arrays with
status failed), then run the loop. -/
def runIterativeTest (env : OrchEnv) : RunOutcome :=
  match env.intentions with
  | .error _ =>
    { intentions := [], state := LoopState.init, status := .failed,
      caughtError := false }
  | .ok ints =>
    let r := runLoop env ints 0 LoopState.init
    { intentions := ints, state := r.1, status := r.2.1, caughtError := r.2.2 }

/-! ### Claim C10: results and steps of a run -/

theorem getLastQueryConcat {α : Type} (l : List α) (a : α) :
    (l ++ [a]).getLast? = some a := by
  induction l with
  | nil => rfl
  | cons x rest ih =>
    rw [List.cons_append, List.getLast?_cons, ih]
    cases rest <;> simp

/-- Invariant carried by a single loop-body outcome: continuing or halting
without a caught error keeps results and steps the same length; a halt with
a caught error leaves one extra result, the run failed, and the extra
result is an error sentinel with status failed and duration 0. -/
def OutcomeOK : StepOutcome → Prop
  | .next s1 => s1.results.length = s1.steps.length
  | .halt s1 _ false => s1.results.length = s1.steps.length
  | .halt s1 st true =>
    s1.results.length = s1.steps.length + 1 ∧ st = .failed ∧
      ∃ res, s1.results.getLast? = some res ∧ res.step.action = "error"
        ∧ res.status = .failed ∧ res.duration = 0

theorem outcomeOK_pushError (s : LoopState) (intention msg : String)
    (h : s.results.length = s.steps.length) :
    OutcomeOK (.halt (pushError s intention msg) .failed true) := by
  refine ⟨by simp [pushError, h], rfl,
    ⟨errorResult intention msg, ?_, rfl, rfl, rfl⟩⟩
  simp [pushError, getLastQueryConcat]

theorem gateOutcome_preserves (env : OrchEnv) (s : LoopState) :
    (gateOutcome env s).1.results = s.results
    ∧ (gateOutcome env s).1.steps = s.steps := by
  unfold gateOutcome
  split <;> simp

theorem execPhase_ok (env : OrchEnv) (intention : String) (step : TestStep)
    (s : LoopState) (h : s.results.length = s.steps.length) :
    OutcomeOK (execPhase env intention step s) := by
  unfold execPhase
  cases hexec : env.execResult s.execCalls step with
  | error msg => exact outcomeOK_pushError _ _ _ (by simpa using h)
  | ok res =>
    simp only []
    split
    · simpa [OutcomeOK] using h
    · split
      · cases hsnap : env.snapshotResult (s.snapCalls) with
        | error msg =>
          exact outcomeOK_pushError _ _ _ (by simp [h])
        | ok snap => simpa [OutcomeOK] using h
      · simpa [OutcomeOK] using h

theorem contextPhase_ok (env : OrchEnv) (intention : String) (s : LoopState)
    (h : s.results.length = s.steps.length) :
    OutcomeOK (contextPhase env intention s) := by
  unfold contextPhase
  cases hgen : env.genStep s.genCalls with
  | error msg => exact outcomeOK_pushError _ _ _ (by simpa using h)
  | ok step =>
    simp only []
    have hg := gateOutcome_preserves env { s with genCalls := s.genCalls + 1 }
    cases hgate : (gateOutcome env { s with genCalls := s.genCalls + 1 }).2 with
    | rejected => simpa [OutcomeOK, hg.1, hg.2] using h
    | thrown msg =>
      exact outcomeOK_pushError _ _ _ (by simp [hg.1, hg.2, h])
    | approved =>
      exact execPhase_ok env intention step _ (by simp [hg.1, hg.2, h])

theorem navExecPhase_ok (env : OrchEnv) (intention : String) (navStep : TestStep)
    (s : LoopState) (h : s.results.length = s.steps.length) :
    OutcomeOK (navExecPhase env intention navStep s) := by
  unfold navExecPhase
  cases hexec : env.execResult s.execCalls navStep with
  | error msg => exact outcomeOK_pushError _ _ _ (by simpa using h)
  | ok navRes =>
    simp only []
    split
    · simpa [OutcomeOK] using h
    · split
      · exact outcomeOK_pushError _ _ _ (by simp [h])
      · split
        · simpa [OutcomeOK] using h
        · exact contextPhase_ok env intention _ (by simp [h])

theorem navPhase_ok (env : OrchEnv) (intention : String) (s : LoopState)
    (h : s.results.length = s.steps.length) :
    OutcomeOK (navPhase env intention s) := by
  unfold navPhase
  cases hgen : env.genStep s.genCalls with
  | error msg => exact outcomeOK_pushError _ _ _ (by simpa using h)
  | ok navStep =>
    simp only []
    have hg := gateOutcome_preserves env { s with genCalls := s.genCalls + 1 }
    cases hgate : (gateOutcome env { s with genCalls := s.genCalls + 1 }).2 with
    | rejected => simpa [OutcomeOK, hg.1, hg.2] using h
    | thrown msg =>
      exact outcomeOK_pushError _ _ _ (by simp [hg.1, hg.2, h])
    | approved =>
      exact navExecPhase_ok env intention navStep _ (by simp [hg.1, hg.2, h])

theorem processIntention_ok (env : OrchEnv) (idx : Nat) (intention : String)
    (s : LoopState) (h : s.results.length = s.steps.length) :
    OutcomeOK (processIntention env idx intention s) := by
  unfold processIntention
  split
  · exact navPhase_ok env intention s h
  · exact contextPhase_ok env intention s h

/-- Invariant carried by a finished loop. -/
def RunLoopOK (r : LoopState × RunStatus × Bool) : Prop :=
  r.1.results.length = r.1.steps.length + (if r.2.2 then 1 else 0)
  ∧ (r.2.2 = true → r.2.1 = .failed ∧
      ∃ res, r.1.results.getLast? = some res ∧ res.step.action = "error"
        ∧ res.status = .failed ∧ res.duration = 0)

theorem runLoop_ok (env : OrchEnv) (ints : List String) :
    ∀ (idx : Nat) (s : LoopState), s.results.length = s.steps.length →
      RunLoopOK (runLoop env ints idx s) := by
  induction ints with
  | nil =>
    intro idx s h
    exact ⟨by simpa [runLoop] using h, by simp [runLoop]⟩
  | cons intention rest ih =>
    intro idx s h
    have hpo := processIntention_ok env idx intention s h
    unfold runLoop
    cases hpi : processIntention env idx intention s with
    | next s1 =>
      rw [hpi] at hpo
      exact ih (idx + 1) s1 hpo
    | halt s1 st c =>
      rw [hpi] at hpo
      cases c with
      | false => exact ⟨by simpa [RunLoopOK] using hpo, by simp⟩
      | true =>
        obtain ⟨hlen, hst, hres⟩ := hpo
        exact ⟨by simpa [RunLoopOK] using hlen, fun _ => ⟨hst, hres⟩⟩

/-- Claim C10: in the record returned by every iterative run, the number of
StepResults equals the number of recorded Steps plus one exactly when the
per-intention catch block fired; in that excess case the extra (last)
StepResult is the error sentinel — action `error`, status failed, duration
0 — and the status of the run is failed. -/
theorem C10_results_steps_invariant (env : OrchEnv) :
    (runIterativeTest env).state.results.length
      = (runIterativeTest env).state.steps.length
        + (if (runIterativeTest env).caughtError then 1 else 0)
    ∧ ((runIterativeTest env).caughtError = true →
        (runIterativeTest env).status = .failed
        ∧ ∃ res, (runIterativeTest env).state.results.getLast? = some res
            ∧ res.step.action = "error" ∧ res.status = .failed
            ∧ res.duration = 0) := by
  unfold runIterativeTest
  cases hints : env.intentions with
  | error e => exact ⟨rfl, by simp⟩
  | ok ints =>
    have hr := runLoop_ok env ints 0 LoopState.init rfl
    exact ⟨hr.1, hr.2⟩

/-! ### Concrete fixtures for the orchestrator claims -/

def navStepW : TestStep :=
  { action := "navigate", target := some "https://example.com" }

def clickStepW : TestStep :=
  { action := "click", target := some "#login" }

def passResW : TestStepResult :=
  { step := navStepW, status := .passed, duration := 120 }

def failResW : TestStepResult :=
  { step := clickStepW, status := .failed, duration := 80,
    error := some "locator not found" }

def snapW : PageSnapshot :=
  { url := "https://example.com", title := "Example Domain", elements := [] }

/-! ### Claim C4: fail-fast on a failed StepResult -/

/-- Claim C4: with three intentions — the first purely navigational — a
driver that passes the navigation and fails the step of the second intention
stops the iterative run there: the run ends failed with exactly the two
StepResults recorded, and the generator is never invoked for the third
intention. -/
theorem C4_fail_fast
    (env : OrchEnv) (i1 i2 i3 : String) (st0 st1 : TestStep)
    (r0 r1 : TestStepResult) (snap : PageSnapshot)
    (hints : env.intentions = .ok [i1, i2, i3])
    (hnav1 : isNavigationIntention i1 = true)
    (hA : env.hasApproval = true)
    (happr0 : env.approval 0 = .approved)
    (happr1 : env.approval 1 = .approved)
    (hgen0 : env.genStep 0 = .ok st0)
    (hgen1 : env.genStep 1 = .ok st1)
    (hexec0 : env.execResult 0 st0 = .ok r0)
    (hexec1 : env.execResult 1 st1 = .ok r1)
    (hsnap0 : env.snapshotResult 0 = .ok snap)
    (hr0 : r0.status = .passed)
    (hr1 : r1.status = .failed) :
    (runIterativeTest env).status = .failed
    ∧ (runIterativeTest env).state.results = [r0, r1]
    ∧ (runIterativeTest env).state.steps = [st0, st1]
    ∧ (runIterativeTest env).state.genCalls = 2 := by
  simp [runIterativeTest, hints, runLoop, processIntention, navPhase,
        navExecPhase, contextPhase, execPhase, gateOutcome, LoopState.init,
        hA, hgen0, hgen1, happr0, happr1, hexec0, hexec1, hsnap0, hnav1,
        hr0, hr1]

def envC4w : OrchEnv :=
  { intentions := .ok ["Navigate to https://example.com",
                       "Click the login button", "Verify the welcome text"],
    genStep := fun n => if n = 0 then .ok navStepW else .ok clickStepW,
    hasApproval := true,
    approval := fun _ => .approved,
    execResult := fun n _ => if n = 0 then .ok passResW else .ok failResW,
    snapshotResult := fun _ => .ok snapW }

theorem C4_witness :
    (runIterativeTest envC4w).status = .failed
    ∧ (runIterativeTest envC4w).state.results = [passResW, failResW]
    ∧ (runIterativeTest envC4w).state.steps = [navStepW, clickStepW]
    ∧ (runIterativeTest envC4w).state.genCalls = 2 :=
  C4_fail_fast envC4w "Navigate to https://example.com"
    "Click the login button" "Verify the welcome text"
    navStepW clickStepW passResW failResW snapW
    rfl (by decide) rfl rfl rfl rfl rfl rfl rfl rfl rfl rfl

/-! ### Claim C1: rejected approval in the iterative loop -/

def envC1 : OrchEnv :=
  { intentions := .ok ["Navigate to https://example.com",
                       "Click the login button", "Verify the welcome text"],
    genStep := fun n => if n = 0 then .ok navStepW else .ok clickStepW,
    hasApproval := true,
    approval := fun n => if n = 0 then .approved else .rejected,
    execResult := fun _ _ => .ok passResW,
    snapshotResult := fun _ => .ok snapW }

/-- Claim C1 counterexample: an approval response with approved false for
the step of the second intention does not produce a skipped StepResult and the
loop does not proceed — the run halts immediately with status cancelled,
no result at all is recorded for the rejected step, the third intention is
never synthesized, and the session does not end completed. -/
theorem C1_counterexample :
    (runIterativeTest envC1).status = .cancelled
    ∧ (runIterativeTest envC1).state.results = [passResW]
    ∧ (∀ r ∈ (runIterativeTest envC1).state.results, r.status ≠ .skipped)
    ∧ (runIterativeTest envC1).state.genCalls = 2 := by
  decide

/-- Claim C1 (amended): in the iterative loop, an approval response with
approved false stops the loop at that step: the status of the run becomes
cancelled, no StepResult (skipped or otherwise) is recorded for the
rejected step, and later intentions are never synthesized. -/
theorem C1_rejection_cancels
    (env : OrchEnv) (i1 i2 i3 : String) (st0 st1 : TestStep)
    (r0 : TestStepResult) (snap : PageSnapshot)
    (hints : env.intentions = .ok [i1, i2, i3])
    (hnav1 : isNavigationIntention i1 = true)
    (hA : env.hasApproval = true)
    (happr0 : env.approval 0 = .approved)
    (happr1 : env.approval 1 = .rejected)
    (hgen0 : env.genStep 0 = .ok st0)
    (hgen1 : env.genStep 1 = .ok st1)
    (hexec0 : env.execResult 0 st0 = .ok r0)
    (hsnap0 : env.snapshotResult 0 = .ok snap)
    (hr0 : r0.status = .passed) :
    (runIterativeTest env).status = .cancelled
    ∧ (runIterativeTest env).state.results = [r0]
    ∧ (runIterativeTest env).state.steps = [st0]
    ∧ (∀ r ∈ (runIterativeTest env).state.results, r.status ≠ .skipped)
    ∧ (runIterativeTest env).state.genCalls = 2 := by
  have hmain :
      (runIterativeTest env).status = .cancelled
      ∧ (runIterativeTest env).state.results = [r0]
      ∧ (runIterativeTest env).state.steps = [st0]
      ∧ (runIterativeTest env).state.genCalls = 2 := by
    simp [runIterativeTest, hints, runLoop, processIntention, navPhase,
          navExecPhase, contextPhase, execPhase, gateOutcome, LoopState.init,
          hA, hgen0, hgen1, happr0, happr1, hexec0, hsnap0, hnav1, hr0]
  refine ⟨hmain.1, hmain.2.1, hmain.2.2.1, ?_, hmain.2.2.2⟩
  intro r hr
  rw [hmain.2.1] at hr
  simp at hr
  rw [hr, hr0]
  simp

theorem C1_witness :
    (runIterativeTest envC1).status = .cancelled
    ∧ (runIterativeTest envC1).state.results = [passResW]
    ∧ (runIterativeTest envC1).state.steps = [navStepW]
    ∧ (∀ r ∈ (runIterativeTest envC1).state.results, r.status ≠ .skipped)
    ∧ (runIterativeTest envC1).state.genCalls = 2 :=
  C1_rejection_cancels envC1 "Navigate to https://example.com"
    "Click the login button" "Verify the welcome text"
    navStepW clickStepW passResW snapW
    rfl (by decide) rfl rfl rfl rfl rfl rfl rfl rfl

/-! ### Claim C2: approval timeout in the iterative loop -/

def envC2 : OrchEnv :=
  { intentions := .ok ["Navigate to https://example.com",
                       "Click the login button", "Verify the welcome text"],
    genStep := fun n => if n = 0 then .ok navStepW else .ok clickStepW,
    hasApproval := true,
    approval := fun n =>
      if n = 0 then .approved else .thrown "Approval timeout for step 1",
    execResult := fun _ _ => .ok passResW,
    snapshotResult := fun _ => .ok snapW }

/-- Claim C2 counterexample: an approval wait that ends by timeout is not
an implicit rejection that skips the intention — the rejected approval
promise propagates into the per-intention catch: the run fails, a failed
error StepResult (not a skipped one) is recorded, and the loop does not
continue to the third intention. -/
theorem C2_counterexample :
    (runIterativeTest envC2).status = .failed
    ∧ (runIterativeTest envC2).state.results
        = [passResW,
           errorResult "Click the login button" "Approval timeout for step 1"]
    ∧ (∀ r ∈ (runIterativeTest envC2).state.results, r.status ≠ .skipped)
    ∧ (runIterativeTest envC2).state.genCalls = 2 := by
  decide

/-- Claim C2 (amended): an approval wait ending by timeout rejects the
approval promise, which the loop catches as an error processing the current
intention: a failed StepResult with action error is appended, the
status of the run becomes failed, the loop stops (later intentions are never
synthesized), and the approval request is made exactly once per gate — no
retry. -/
theorem C2_timeout_fails_run
    (env : OrchEnv) (i1 i2 i3 : String) (st0 st1 : TestStep)
    (r0 : TestStepResult) (snap : PageSnapshot) (msg : String)
    (hints : env.intentions = .ok [i1, i2, i3])
    (hnav1 : isNavigationIntention i1 = true)
    (hA : env.hasApproval = true)
    (happr0 : env.approval 0 = .approved)
    (happr1 : env.approval 1 = .thrown msg)
    (hgen0 : env.genStep 0 = .ok st0)
    (hgen1 : env.genStep 1 = .ok st1)
    (hexec0 : env.execResult 0 st0 = .ok r0)
    (hsnap0 : env.snapshotResult 0 = .ok snap)
    (hr0 : r0.status = .passed) :
    (runIterativeTest env).status = .failed
    ∧ (runIterativeTest env).caughtError = true
    ∧ (runIterativeTest env).state.results = [r0, errorResult i2 msg]
    ∧ (runIterativeTest env).state.apprCalls = 2
    ∧ (runIterativeTest env).state.genCalls = 2 := by
  simp [runIterativeTest, hints, runLoop, processIntention, navPhase,
        navExecPhase, contextPhase, execPhase, gateOutcome, LoopState.init,
        hA, hgen0, hgen1, happr0, happr1, hexec0, hsnap0, hnav1, hr0,
        pushError]

theorem C2_witness :
    (runIterativeTest envC2).status = .failed
    ∧ (runIterativeTest envC2).caughtError = true
    ∧ (runIterativeTest envC2).state.results
        = [passResW,
           errorResult "Click the login button" "Approval timeout for step 1"]
    ∧ (runIterativeTest envC2).state.apprCalls = 2
    ∧ (runIterativeTest envC2).state.genCalls = 2 :=
  C2_timeout_fails_run envC2 "Navigate to https://example.com"
    "Click the login button" "Verify the welcome text"
    navStepW clickStepW passResW snapW "Approval timeout for step 1"
    rfl (by decide) rfl rfl rfl rfl rfl rfl rfl rfl

/-- Environment whose very first generation call throws, exercising the
caught-error case of the run invariant. -/
def envC10w : OrchEnv :=
  { intentions := .ok ["Verify the heading"],
    genStep := fun _ => .error "LLM returned no step",
    hasApproval := false,
    approval := fun _ => .approved,
    execResult := fun _ _ => .ok passResW,
    snapshotResult := fun _ => .ok snapW }

theorem C10_witness :
    ((runIterativeTest envC10w).state.results.length
      = (runIterativeTest envC10w).state.steps.length
        + (if (runIterativeTest envC10w).caughtError then 1 else 0))
    ∧ ((runIterativeTest envC10w).status = .failed
        ∧ ∃ res, (runIterativeTest envC10w).state.results.getLast? = some res
            ∧ res.step.action = "error" ∧ res.status = .failed
            ∧ res.duration = 0) :=
  ⟨(C10_results_steps_invariant envC10w).1,
   (C10_results_steps_invariant envC10w).2 (by decide)⟩

end AiTestAssistant
